import Mathlib

/-!
Verification development for the ytstorage storage gateway.

This file gives a shallow embedding of the core of the repository:
path safety (src/utils/path_ut.py), the error taxonomy
(src/utils/errors_ut.py), the filesystem driver
(src/drivers/fs/fs_driver_drv.py), the object-store driver
(src/drivers/s3/s3_driver_drv.py), the cache layer
(src/utils/cache_ut.py) and the RPC handler layer
(src/server/handlers_srv.py), together with theorems about the
specified properties.

Modelling conventions:
- Byte strings are `List Nat`.
- Async functions become pure state-passing functions; a Python
  exception becomes the `Except.error` case of the result (so an
  operation that raises performs no state mutation unless the
  embedding threads the partial state explicitly, as the multipart
  upload model does).
- The local filesystem is a set of directory paths plus a map from
  absolute file paths to contents (symlink-free: `Path.resolve` is
  modelled as purely lexical resolution).
- The S3 backend is a reliable object store: a map from keys to
  contents plus the set of open multipart upload ids; a multipart
  completion with an empty part list is rejected, as S3-compatible
  backends do; backend metadata (timestamps, ETags) that the code
  merely copies out of responses is abstracted to fixed values, since
  no property below depends on it.
-/

namespace YTStorage

/-- Byte strings are modelled as lists of naturals. -/
abbrev Bytes := List Nat

/-! ## Path safety: src/utils/path_ut.py -/

/-- Splitting a character list on `'/'`, keeping empty pieces, as
Python path splitting does. -/
def splitSlashAux : List Char → List Char → List (List Char)
  | [], cur => [cur.reverse]
  | c :: rest, cur =>
    if c = '/' then cur.reverse :: splitSlashAux rest []
    else splitSlashAux rest (c :: cur)

/-- The `/`-separated pieces of a string (the path segments pathlib
joins and resolves over). -/
def splitSlash (s : String) : List String :=
  (splitSlashAux s.data []).map String.mk

/-- Replacement of every backslash by a slash (single-character
`str.replace`). -/
def backslashToSlash (s : String) : String :=
  String.mk (s.data.map (fun c => if c = '\\' then '/' else c))

/-- Python `str.strip()`: whitespace removed from both ends. -/
def trimWs (s : String) : String :=
  String.mk (((s.data.dropWhile Char.isWhitespace).reverse.dropWhile
    Char.isWhitespace).reverse)

/-- Python `str.lstrip("/")`: leading slashes removed. -/
def stripLeadingSlashes (s : String) : String :=
  String.mk (s.data.dropWhile (fun c => c = '/'))

/-- Python `str.endswith("/")`. -/
def endsWithSlash (s : String) : Bool :=
  match s.data.getLast? with
  | some c => c = '/'
  | none => false

/-- Model of `normalize_path` (src/utils/path_ut.py:5-22): empty input
gives the root (empty string); otherwise backslashes become slashes,
whitespace is trimmed, and leading slashes are stripped. -/
def normalize_path (rel_path : String) : String :=
  if rel_path = "" then ""
  else stripLeadingSlashes (trimWs (backslashToSlash rel_path))

/-- Lexical resolution of a `/`-separated segment list to canonical
absolute-path segments, as `pathlib.Path.resolve` does on a
symlink-free tree: empty and `.` segments vanish, `..` pops the last
segment (and is a no-op at the root). -/
def resolveSegs (segs : List String) : List String :=
  segs.foldl (fun acc s =>
    if s = "" ∨ s = "." then acc
    else if s = ".." then acc.dropLast
    else acc ++ [s]) []

/-- Rendering of canonical absolute-path segments as `str(Path(...))`
renders them: "/" for the root, otherwise "/" ++ segments joined
by "/". -/
def renderAbs (segs : List String) : String :=
  if segs = [] then "/" else segs.foldl (fun acc s => acc ++ "/" ++ s) ""

/-- Model of Python `str.startswith`: string prefix test, expressed on
the underlying character lists. -/
def pyStartsWith (s pre : String) : Bool :=
  pre.data.isPrefixOf s.data

/-- Model of `safe_join` (src/utils/path_ut.py:25-49): resolve the
base, normalize the client path, join and resolve, then require the
resolved target string to start with the resolved base string;
otherwise raise `PermissionError` ("Path traversal detected"). -/
def safe_join (base rel_path : String) : Except String String :=
  let base_segs := resolveSegs (splitSlash base)
  let clean_rel := normalize_path rel_path
  let final_segs := resolveSegs (base_segs ++ splitSlash clean_rel)
  if pyStartsWith (renderAbs final_segs) (renderAbs base_segs) then
    Except.ok (renderAbs final_segs)
  else
    Except.error ("Path traversal detected: " ++ rel_path)

/-- Helper used only to state claims: does the raw client path contain
a `..` path segment? -/
def hasDotDotSeg (p : String) : Bool :=
  (splitSlash p).contains ".."

/-! ## Error taxonomy: src/utils/errors_ut.py -/

/-- The Python exception classes that the repository raises or
catches, each carrying its message; `streamError` stands for an
arbitrary exception raised by an inbound data stream. -/
inductive PyError where
  | fileNotFound (msg : String)
  | permissionError (msg : String)
  | fileExists (msg : String)
  | isADirectoryError (msg : String)
  | notADirectoryError (msg : String)
  | osError (errno : Nat) (msg : String)
  | notImplementedError (msg : String)
  | connectionError (msg : String)
  | clientError (code : String) (msg : String)
  | streamError (msg : String)
deriving DecidableEq, Repr

/-- Python `str(e)`: the message of the exception. -/
def pyErrMsg : PyError → String
  | .fileNotFound m => m
  | .permissionError m => m
  | .fileExists m => m
  | .isADirectoryError m => m
  | .notADirectoryError m => m
  | .osError _ m => m
  | .notImplementedError m => m
  | .connectionError m => m
  | .clientError _ m => m
  | .streamError m => m

/-- The gRPC status codes the server uses. -/
inductive StatusCode where
  | ok
  | notFound
  | permissionDenied
  | alreadyExists
  | failedPrecondition
  | invalidArgument
  | unauthenticated
  | unimplemented
  | internal
deriving DecidableEq, Repr

/-- Model of `translate_exception` (src/utils/errors_ut.py:7-47): the
isinstance chain mapping exceptions to gRPC status codes; everything
not matched falls through to INTERNAL. -/
def translate_exception (e : PyError) : StatusCode × String :=
  match e with
  | .fileNotFound m => (.notFound, "Resource not found: " ++ m)
  | .permissionError m => (.permissionDenied, "Permission denied: " ++ m)
  | .fileExists m => (.alreadyExists, "Resource already exists: " ++ m)
  | .osError errno m =>
      if errno = 39 then (.failedPrecondition, "Directory not empty: " ++ m)
      else (.internal, "Internal server error: " ++ m)
  | .isADirectoryError m => (.failedPrecondition, "Is a directory: " ++ m)
  | .notADirectoryError m => (.failedPrecondition, "Not a directory: " ++ m)
  | e => (.internal, "Internal server error: " ++ pyErrMsg e)

/-! ## Shared data model: src/drivers/driver_base_drv.py -/

/-- Model of the `FileStat` dataclass (src/drivers/driver_base_drv.py:5-13).
Timestamps are backend metadata the code merely copies out of `os.stat`
or S3 responses; they are abstracted to 0 here. -/
structure FileStat where
  name : String
  rel_path : String
  is_dir : Bool
  size : Nat
  created_at : Nat
  updated_at : Nat
  etag : Option String
deriving DecidableEq, Repr

deriving instance DecidableEq for Except

/-- Outcome of a state-mutating driver call whose final state matters
even when an exception propagates (used for the multipart upload
model): the final backend state plus either success or the raised
exception. -/
structure DriverOutcome (σ : Type) where
  state : σ
  result : Except PyError Unit
deriving DecidableEq, Repr

/-- Association-list lookup by string key. -/
def lookupKey {α : Type} (m : List (String × α)) (k : String) : Option α :=
  (m.find? (fun e => e.1 = k)).map (fun e => e.2)

/-- Association-list update: bind `k` to `v`, dropping any old binding. -/
def setKey {α : Type} (m : List (String × α)) (k : String) (v : α) : List (String × α) :=
  (k, v) :: m.filter (fun e => ¬ e.1 = k)

/-- Association-list deletion of every binding of `k`. -/
def delKey {α : Type} (m : List (String × α)) (k : String) : List (String × α) :=
  m.filter (fun e => ¬ e.1 = k)

/-! ## Filesystem driver: src/drivers/fs/fs_driver_drv.py -/

/-- The local filesystem backing store: the set of existing directory
paths and a map from absolute file paths to contents. -/
structure FsState where
  dirs : List String
  files : List (String × Bytes)
deriving DecidableEq, Repr

/-- Segments of a canonical absolute path (inverse of `renderAbs` on
canonical paths): the nonempty pieces of splitting on "/". -/
def absSegs (p : String) : List String :=
  (splitSlash p).filter (fun s => ¬ s = "")

/-- Model of `os.path.dirname` on canonical absolute paths. -/
def dirname (p : String) : String :=
  renderAbs (absSegs p).dropLast

/-- Model of `os.path.basename` on canonical absolute paths. -/
def basename (p : String) : String :=
  (absSegs p).getLastD ""

/-- Proper ancestors of a canonical absolute path, shortest first
(the intermediate directories `os.makedirs` would create). -/
def properAncestors (p : String) : List String :=
  (List.range ((absSegs p).length - 1)).map
    (fun i => renderAbs ((absSegs p).take (i + 1)))

/-- Model of `os.path.exists`. -/
def fsExists (st : FsState) (p : String) : Prop :=
  p ∈ st.dirs ∨ (lookupKey st.files p).isSome = true

instance (st : FsState) (p : String) : Decidable (fsExists st p) := by
  unfold fsExists
  infer_instance

/-- Insert each of `ps` into `dirs`, keeping existing entries unique. -/
def addDirs (dirs : List String) (ps : List String) : List String :=
  ps.foldl (fun d q => if q ∈ d then d else d ++ [q]) dirs

/-- Model of `os.makedirs(p, exist_ok)`: raises `FileExistsError` when
the target already exists (as a directory with `exist_ok=False`, or as
a file regardless), `NotADirectoryError` when a proper ancestor exists
as a file; otherwise creates the target and all missing ancestors. -/
def os_makedirs (st : FsState) (p : String) (exist_ok : Bool) : Except PyError FsState :=
  if p ∈ st.dirs then
    if exist_ok then .ok st
    else .error (.fileExists p)
  else if (lookupKey st.files p).isSome then .error (.fileExists p)
  else if (properAncestors p).any (fun a => (lookupKey st.files a).isSome) then
    .error (.notADirectoryError p)
  else
    .ok { st with dirs := addDirs st.dirs (properAncestors p ++ [p]) }

/-- Model of `FSDriver._full_path` (src/drivers/fs/fs_driver_drv.py:23-25):
`safe_join(root, rel_path)`, whose `PermissionError` propagates. -/
def fs_full_path (root rel : String) : Except PyError String :=
  match safe_join root rel with
  | .error m => .error (.permissionError m)
  | .ok full => .ok full

/-- Model of `FSDriver.stat` (src/drivers/fs/fs_driver_drv.py:35-48):
`os.stat` on the resolved path (FileNotFoundError when absent). -/
def fs_stat (st : FsState) (root rel : String) : Except PyError FileStat :=
  match fs_full_path root rel with
  | .error e => .error e
  | .ok full =>
    if full ∈ st.dirs then
      .ok ⟨basename full, rel, true, 0, 0, 0, none⟩
    else
      match lookupKey st.files full with
      | some data => .ok ⟨basename full, rel, false, data.length, 0, 0, none⟩
      | none => .error (.fileNotFound full)

/-- Model of `FSDriver.exists` (src/drivers/fs/fs_driver_drv.py:50-52). -/
def fs_exists (st : FsState) (root rel : String) : Except PyError Bool :=
  match fs_full_path root rel with
  | .error e => .error e
  | .ok full => .ok (decide (fsExists st full))

/-- Model of `FSDriver.mkdirs` (src/drivers/fs/fs_driver_drv.py:74-76):
resolve, then `os.makedirs(full_path, exist_ok=exist_ok)`. -/
def fs_mkdirs (st : FsState) (root rel : String) (exist_ok : Bool) : Except PyError FsState :=
  match fs_full_path root rel with
  | .error e => .error e
  | .ok full => os_makedirs st full exist_ok

/-- Model of `FSDriver.remove` (src/drivers/fs/fs_driver_drv.py:88-98):
directories go through `shutil.rmtree` (recursive) or `os.rmdir`
(errno 39 when non-empty); everything else through `os.remove`
(FileNotFoundError when absent). -/
def fs_remove (st : FsState) (root rel : String) (recursive : Bool) : Except PyError FsState :=
  match fs_full_path root rel with
  | .error e => .error e
  | .ok full =>
    if full ∈ st.dirs then
      if recursive then
        .ok { dirs := st.dirs.filter
                (fun d => ¬ d = full ∧ ¬ (full ++ "/").data.isPrefixOf d.data),
              files := st.files.filter
                (fun e => ¬ (full ++ "/").data.isPrefixOf e.1.data) }
      else
        if st.dirs.any (fun d => (full ++ "/").data.isPrefixOf d.data) ∨
           st.files.any (fun e => (full ++ "/").data.isPrefixOf e.1.data) then
          .error (.osError 39 ("Directory not empty: " ++ full))
        else
          .ok { st with dirs := st.dirs.filter (fun d => ¬ d = full) }
    else
      match lookupKey st.files full with
      | some _ => .ok { st with files := delKey st.files full }
      | none => .error (.fileNotFound full)

/-- The chunked read loop of `FSDriver.read_stream`
(src/drivers/fs/fs_driver_drv.py:108-122), after seeking to the
offset: `fileRest` is the part of the file after the current position;
`length = 0` means read to end; each iteration reads
`min(chunk_size, remaining)` bytes and stops at the first empty
read. -/
def fsReadLoop (chunkSize length : Nat) (fileRest : Bytes) (bytesRead : Nat) : List Bytes :=
  if 0 < length ∧ length - bytesRead = 0 then []
  else
    let toRead := if 0 < length then min chunkSize (length - bytesRead) else chunkSize
    let chunk := fileRest.take toRead
    if h : chunk = [] then []
    else chunk :: fsReadLoop chunkSize length (fileRest.drop toRead) (bytesRead + chunk.length)
termination_by fileRest.length
decreasing_by
  simp only [List.length_drop]
  have hfr : fileRest ≠ [] := by
    intro hnil
    exact h (by simp [chunk, hnil])
  have htr : 0 < toRead := by
    by_contra hle
    have : toRead = 0 := Nat.eq_zero_of_not_pos hle
    exact h (by simp [chunk, this])
  exact Nat.sub_lt (List.length_pos.mpr hfr) htr

/-- Model of `FSDriver.read_stream` (src/drivers/fs/fs_driver_drv.py:100-122):
resolve, open for reading (IsADirectoryError on a directory,
FileNotFoundError when absent), seek to `offset`, then the chunked
read loop. -/
def fs_read_stream (st : FsState) (root rel : String) (offset length chunkSize : Nat) :
    Except PyError (List Bytes) :=
  match fs_full_path root rel with
  | .error e => .error e
  | .ok full =>
    if full ∈ st.dirs then .error (.isADirectoryError full)
    else
      match lookupKey st.files full with
      | none => .error (.fileNotFound full)
      | some data => .ok (fsReadLoop chunkSize length (data.drop offset) 0)

/-- Model of `FSDriver.write_stream` (src/drivers/fs/fs_driver_drv.py:124-141):
resolve; with neither overwrite nor append, `FileExistsError` if the
destination exists; create missing parent directories; open in
`wb`/`ab` mode (IsADirectoryError on a directory) and write every
chunk of the inbound stream in order. -/
def fs_write_stream (st : FsState) (root rel : String) (chunks : List Bytes)
    (overwrite append : Bool) : Except PyError FsState :=
  match fs_full_path root rel with
  | .error e => .error e
  | .ok full =>
    if ¬ overwrite = true ∧ ¬ append = true ∧ fsExists st full then
      .error (.fileExists ("File exists: " ++ rel))
    else
      match (if ¬ fsExists st (dirname full)
             then os_makedirs st (dirname full) true
             else .ok st) with
      | .error e => .error e
      | .ok st2 =>
        if full ∈ st2.dirs then .error (.isADirectoryError full)
        else
          let old := if append = true then (lookupKey st2.files full).getD [] else []
          .ok { st2 with files := setKey st2.files full (old ++ chunks.flatten) }

/-! ## Object-store driver: src/drivers/s3/s3_driver_drv.py

The S3 backend is modelled as a reliable object store: a map from
keys to contents plus the set of ids of currently open multipart
upload sessions (fresh ids come from a counter). `head_object`
succeeds exactly on present keys, `list_objects_v2(Prefix=p)` returns
the keys with string prefix `p`, a ranged `get_object` follows the
HTTP range semantics (416 on a start at or past the end), and
`upload_part` and `abort_multipart_upload` succeed.
`complete_multipart_upload` with at least one part succeeds,
concatenating the uploaded parts in part order; a completion with an
empty part list is rejected by S3-compatible backends (AWS, Ceph,
MinIO answer MalformedXML/InvalidRequest), modelled as a raised
`ClientError`. -/

/-- The modelled S3 backend state. -/
structure S3State where
  objects : List (String × Bytes)
  uploads : List Nat
  nextUploadId : Nat
deriving DecidableEq, Repr

/-- Model of `S3Driver._clean_key` (src/drivers/s3/s3_driver_drv.py:42-44):
Python `rel_path.strip("/")` — strips slashes from both ends, nothing
more. -/
def clean_key (rel_path : String) : String :=
  String.mk (((rel_path.data.dropWhile (fun c => c = '/')).reverse.dropWhile
    (fun c => c = '/')).reverse)

/-- Model of `S3Driver._is_dir` (src/drivers/s3/s3_driver_drv.py:97-102):
append a trailing slash if missing, then test whether a 1-key listing
under the prefix is non-empty. -/
def s3_is_dir (st : S3State) (pfx : String) : Bool :=
  let p := if endsWithSlash pfx = true then pfx else pfx ++ "/"
  st.objects.any (fun e => p.data.isPrefixOf e.1.data)

/-- Model of `S3Driver.stat` (src/drivers/s3/s3_driver_drv.py:68-95):
`head_object` on the cleaned key; on 404, report a synthetic directory
entry if the key is a non-empty prefix, else FileNotFoundError. The
ETag copied out of the backend response is abstracted to "". -/
def s3_stat (st : S3State) (rel : String) : Except PyError FileStat :=
  let key := clean_key rel
  match lookupKey st.objects key with
  | some data => .ok ⟨basename key, rel, false, data.length, 0, 0, some ""⟩
  | none =>
    if s3_is_dir st key then
      .ok ⟨basename key, rel, true, 0, 0, 0, none⟩
    else
      .error (.fileNotFound ("S3 Object not found: " ++ key))

/-- Model of `S3Driver.exists` (src/drivers/s3/s3_driver_drv.py:104-109):
`stat` succeeding, with FileNotFoundError mapped to `false`. -/
def s3_exists (st : S3State) (rel : String) : Bool :=
  match s3_stat st rel with
  | .ok _ => true
  | .error _ => false

/-- Model of `S3Driver.mkdirs` (src/drivers/s3/s3_driver_drv.py:145-150):
unconditionally put a zero-length marker object at `key + "/"`;
the `exist_ok` argument is never consulted. -/
def s3_mkdirs (st : S3State) (rel : String) (exist_ok : Bool) : Except PyError S3State :=
  let key := clean_key rel
  let key := if endsWithSlash key = true then key else key ++ "/"
  .ok { st with objects := setKey st.objects key [] }

/-- Model of `S3Driver.remove` (src/drivers/s3/s3_driver_drv.py:167-189):
if `head_object` succeeds the single key is deleted; otherwise a
recursive call batch-deletes every key under the prefix, and a
non-recursive call fails with errno 39 only when the prefix is
non-empty (an absent path returns silently). -/
def s3_remove (st : S3State) (rel : String) (recursive : Bool) : Except PyError S3State :=
  let key := clean_key rel
  if (lookupKey st.objects key).isSome then
    .ok { st with objects := delKey st.objects key }
  else if recursive then
    let p := if endsWithSlash key = true then key else key ++ "/"
    .ok { st with objects := st.objects.filter (fun e => ¬ p.data.isPrefixOf e.1.data) }
  else
    if s3_is_dir st key then .error (.osError 39 "Directory not empty (S3 prefix)")
    else .ok st

/-- Chunking of a byte string into fixed-size pieces, as
`StreamingBody.iter_chunks(chunk_size)` yields it. -/
def chunkList (chunkSize : Nat) (l : Bytes) : List Bytes :=
  if chunkSize = 0 then []
  else if l = [] then []
  else l.take chunkSize :: chunkList chunkSize (l.drop chunkSize)
termination_by l.length
decreasing_by
  rename_i hcs hl
  simp only [List.length_drop]
  exact Nat.sub_lt (List.length_pos.mpr hl) (Nat.pos_of_ne_zero hcs)

/-- Model of `S3Driver.read_stream` (src/drivers/s3/s3_driver_drv.py:192-232):
a plain GET when `offset = 0` and `length = 0`, otherwise a ranged GET
`bytes=offset-(offset+length-1)` (open-ended when `length = 0`); a 416
InvalidRange response (start at or past the object's end) yields an
empty stream instead of an error; an absent key is FileNotFoundError. -/
def s3_read_stream (st : S3State) (rel : String) (offset length chunkSize : Nat) :
    Except PyError (List Bytes) :=
  let key := clean_key rel
  match lookupKey st.objects key with
  | none => .error (.fileNotFound ("S3 key not found: " ++ key))
  | some data =>
    if 0 < offset ∨ 0 < length then
      if data.length ≤ offset then .ok []
      else
        let sliced := if 0 < length then (data.drop offset).take length
                      else data.drop offset
        .ok (chunkList chunkSize sliced)
    else
      .ok (chunkList chunkSize data)

/-- The part-buffering loop of `S3Driver.write_stream`
(src/drivers/s3/s3_driver_drv.py:255-264): consume the inbound
stream, extend the buffer, and flush the buffer as one numbered part
whenever it reaches the chunk threshold; a chunk whose production
raises propagates that exception. Returns the uploaded part contents
in order plus the leftover buffer. -/
def s3UploadLoop (chunkSize : Nat) (chunks : List (Except PyError Bytes))
    (buffer : Bytes) (parts : List Bytes) : Except PyError (List Bytes × Bytes) :=
  match chunks with
  | [] => .ok (parts, buffer)
  | .error e :: _ => .error e
  | .ok c :: rest =>
    let buffer := buffer ++ c
    if chunkSize ≤ buffer.length then
      s3UploadLoop chunkSize rest [] (parts ++ [buffer])
    else
      s3UploadLoop chunkSize rest buffer parts

/-- Model of `S3Driver.write_stream` (src/drivers/s3/s3_driver_drv.py:235-280):
append is NotImplementedError; without overwrite an existing key is
FileExistsError (checked before any upload); otherwise a multipart
session is opened, the inbound stream is consumed through the
part-buffering loop, a non-empty leftover buffer becomes the final
part, and completion commits the parts — while any exception after
the session opened first aborts the session and then propagates.
An empty inbound payload reaches `complete_multipart_upload` with
`Parts = []`, which the backend rejects (ClientError); the
except-block then aborts the session and re-raises, so no object is
created. The inbound stream is a chunk list whose elements may be
raised exceptions. -/
def s3_write_stream (st : S3State) (rel : String) (chunks : List (Except PyError Bytes))
    (overwrite append : Bool) (chunkSize : Nat) : DriverOutcome S3State :=
  if append = true then
    ⟨st, .error (.notImplementedError "Append operation is not supported on S3 driver")⟩
  else
    let key := clean_key rel
    if ¬ overwrite = true ∧ (lookupKey st.objects key).isSome then
      ⟨st, .error (.fileExists ("S3 key exists: " ++ key))⟩
    else
      let uploadId := st.nextUploadId
      let st1 : S3State :=
        { st with uploads := uploadId :: st.uploads, nextUploadId := st.nextUploadId + 1 }
      match s3UploadLoop chunkSize chunks [] [] with
      | .error e =>
        ⟨{ st1 with uploads := st1.uploads.erase uploadId }, .error e⟩
      | .ok (parts, buffer) =>
        let parts := if ¬ buffer = [] then parts ++ [buffer] else parts
        if parts = [] then
          ⟨{ st1 with uploads := st1.uploads.erase uploadId },
            .error (.clientError "MalformedXML"
              "The XML you provided was not well-formed or did not validate against our published schema")⟩
        else
          ⟨{ st1 with objects := setKey st1.objects key parts.flatten,
                      uploads := st1.uploads.erase uploadId }, .ok ()⟩

/-! ## Cache layer: src/utils/cache_ut.py

The Redis store is modelled as two association lists keyed by
rel_path — `CacheManager` namespaces the two entry kinds with the
distinct key prefixes "ytstorage:stat:" and "ytstorage:data:", which
the model renders as two separate maps. -/

/-- The cache contents: stat entries and small-object data entries. -/
structure CacheState where
  stats : List (String × FileStat)
  datas : List (String × Bytes)
deriving DecidableEq, Repr

/-- Model of `CacheManager.invalidate` (src/utils/cache_ut.py:77-84):
a single delete of both the stat key and the data key of the path. -/
def cache_invalidate (c : CacheState) (rel : String) : CacheState :=
  { stats := delKey c.stats rel, datas := delKey c.datas rel }

/-! ## Handler layer: src/server/handlers_srv.py

The handlers are modelled after the auth gate, with the driver call
abstracted to its outcome (the claims below quantify over driver
behaviour). `context.abort(code, msg)` terminates the RPC with that
status; messages yielded after an abort never reach the client. -/

/-- The visible outcome of a unary RPC: a successful response, or the
status the RPC was aborted with, plus the final cache state. -/
structure RpcOutcome (ρ : Type) where
  response : Option ρ
  abort : Option (StatusCode × String)
  cache : CacheState

/-- Model of `StorageServiceServicer.Rename` (src/server/handlers_srv.py:139-155):
drive the rename, then invalidate both endpoints and answer ok; any
exception is translated and aborts the RPC — the two invalidations
are only reached on success. -/
def handleRename (c : CacheState) (driverResult : Except PyError Unit) (src dst : String) :
    RpcOutcome Bool :=
  match driverResult with
  | .ok _ =>
    { response := some true, abort := none,
      cache := cache_invalidate (cache_invalidate c src) dst }
  | .error e =>
    { response := none, abort := some (translate_exception e), cache := c }

/-- Model of `StorageServiceServicer.Remove` (src/server/handlers_srv.py:157-170):
drive the removal, then invalidate the path and answer ok; any
exception is translated and aborts the RPC — the invalidation is only
reached on success. -/
def handleRemove (c : CacheState) (driverResult : Except PyError Unit) (rel : String) :
    RpcOutcome Bool :=
  match driverResult with
  | .ok _ =>
    { response := some true, abort := none, cache := cache_invalidate c rel }
  | .error e =>
    { response := none, abort := some (translate_exception e), cache := c }

/-- A frame of the client-streaming write protocol: the oneof
{header, data} envelope. -/
inductive WriteFrame where
  | header (path : String) (overwrite append : Bool)
  | data (bytes : Bytes)
deriving DecidableEq, Repr

/-- Model of `_data_extractor` (src/server/handlers_srv.py:267-275):
the byte chunks it yields from the remaining inbound frames — header
frames are skipped with `continue`, data frames are yielded. -/
def dataFrames (frames : List WriteFrame) : List Bytes :=
  frames.filterMap (fun f =>
    match f with
    | .header _ _ _ => none
    | .data b => some b)

/-- The `state.bytes_count` the extractor accumulates over the frames
it consumed: the summed length of the yielded data chunks. -/
def bytesCount (frames : List WriteFrame) : Nat :=
  ((dataFrames frames).map (fun b => b.length)).sum

/-- The terminal acknowledgement message of the write protocol. -/
structure WriteAck where
  ok : Bool
  bytes_written : Nat
  error : String
deriving DecidableEq, Repr

/-- The visible outcome of the client-streaming Write RPC: the acks
yielded to the client, the abort status if the RPC was torn, and the
final cache state. -/
structure WriteOutcome where
  acks : List WriteAck
  abort : Option (StatusCode × String)
  cache : CacheState

/-- Model of `StorageServiceServicer.Write` (src/server/handlers_srv.py:259-306).
The driver's `write_stream` is abstracted as a function `wd` from the
extracted data chunks to either the final `bytes_count` (it consumed
the whole stream) or the raised exception paired with the
`bytes_count` at the moment it raised. An empty stream or a non-header
first frame aborts InvalidArgument (the except-block still invalidates
the placeholder path "unknown"); after a parsed header the driver runs
and the handler invalidates the destination and yields exactly one
terminal ack on success and on failure alike — a failure is reported
in-band with `ok = false` and `str(e)`, never by aborting the RPC. -/
def handleWrite (c : CacheState) (frames : List WriteFrame)
    (wd : String → List Bytes → Bool → Bool → Except (PyError × Nat) Nat) : WriteOutcome :=
  match frames with
  | [] =>
    { acks := [], abort := some (.invalidArgument, "Empty stream"),
      cache := cache_invalidate c "unknown" }
  | .data _ :: _ =>
    { acks := [], abort := some (.invalidArgument, "First message must be WriteHeader"),
      cache := cache_invalidate c "unknown" }
  | .header path overwrite append :: rest =>
    match wd path (dataFrames rest) overwrite append with
    | .ok n =>
      { acks := [⟨true, n, ""⟩], abort := none, cache := cache_invalidate c path }
    | .error (e, n) =>
      { acks := [⟨false, n, pyErrMsg e⟩], abort := none, cache := cache_invalidate c path }

/-! ## Specification-side helpers (not part of the embedded code) -/

/-- Concatenation of a streamed read into the full byte string it
delivers. -/
def readAll (r : Except PyError (List Bytes)) : Except PyError Bytes :=
  r.map List.flatten

/-- Did the call return normally (raise no exception)? -/
def exceptOk {α : Type} (r : Except PyError α) : Bool :=
  match r with
  | .ok _ => true
  | .error _ => false

/-- Did the call raise `PermissionError`? -/
def raisesPermission {α : Type} (r : Except PyError α) : Bool :=
  match r with
  | .error (.permissionError _) => true
  | _ => false

/-- A driver write that always raises `e` after having consumed `n`
bytes — a stand-in used to exercise the handler's failure path. -/
def failingWriteDriver (e : PyError) (n : Nat) :
    String → List Bytes → Bool → Bool → Except (PyError × Nat) Nat :=
  fun _ _ _ _ => .error (e, n)

/-! ## Helper lemmas -/

/-- Folding path segments onto an accumulator only appends to it. -/
theorem renderFold_data (l : List String) (acc : String) :
    (l.foldl (fun a s => a ++ "/" ++ s) acc).data
      = acc.data ++ (l.foldl (fun a s => a ++ "/" ++ s) "").data := by
  induction l generalizing acc with
  | nil => simp
  | cons a l ih =>
    rw [List.foldl_cons, List.foldl_cons, ih (acc ++ "/" ++ a), ih ("" ++ "/" ++ a)]
    simp [String.data_append]

/-- Rendering a longer canonical segment list extends the rendering of
a segment-list prefix, character by character. -/
theorem renderAbs_data_prefix (B t : List String) :
    (renderAbs B).data <+: (renderAbs (B ++ t)).data := by
  cases B with
  | nil =>
    cases t with
    | nil => exact List.prefix_refl _
    | cons a r =>
      have h1 : renderAbs ([] : List String) = "/" := rfl
      have h2 : renderAbs (a :: r) = (a :: r).foldl (fun acc s => acc ++ "/" ++ s) "" := by
        simp [renderAbs]
      rw [List.nil_append, h1, h2, List.foldl_cons, renderFold_data]
      refine ⟨a.data ++ (r.foldl (fun x s => x ++ "/" ++ s) "").data, ?_⟩
      have h0 : ("" : String).data = [] := rfl
      simp [String.data_append, h0, List.append_assoc]
  | cons b bs =>
    have h2 : renderAbs (b :: bs) = (b :: bs).foldl (fun acc s => acc ++ "/" ++ s) "" := by
      simp [renderAbs]
    have h3 : renderAbs ((b :: bs) ++ t)
        = ((b :: bs) ++ t).foldl (fun acc s => acc ++ "/" ++ s) "" := by
      simp [renderAbs]
    rw [h2, h3, List.foldl_append,
      renderFold_data t ((b :: bs).foldl (fun acc s => acc ++ "/" ++ s) "")]
    exact List.prefix_append _ _

/-- Python `startswith` is the character-list prefix relation. -/
theorem pyStartsWith_iff (s pre : String) :
    pyStartsWith s pre = true ↔ pre.data <+: s.data := by
  simp [pyStartsWith, List.isPrefixOf_iff_prefix]

/-- The part-buffering loop never raises on a pure inbound stream;
the uploaded parts plus the leftover buffer carry exactly the prior
parts, the prior buffer and all consumed bytes, in order; and with a
positive threshold every flushed part is non-empty (each flush happens
only once the buffer reached the threshold). -/
theorem s3UploadLoop_pure (cs : Nat) (chunks : List Bytes) :
    ∀ (buffer : Bytes) (parts : List Bytes),
      ∃ P B, s3UploadLoop cs (chunks.map Except.ok) buffer parts = .ok (P, B) ∧
        P.flatten ++ B = parts.flatten ++ (buffer ++ chunks.flatten) ∧
        (0 < cs → (∀ q ∈ parts, q ≠ []) → ∀ q ∈ P, q ≠ []) := by
  induction chunks with
  | nil =>
    intro buffer parts
    exact ⟨parts, buffer, rfl, by simp, fun _ hp => hp⟩
  | cons c rest ih =>
    intro buffer parts
    simp only [List.map_cons, s3UploadLoop]
    by_cases hcs : cs ≤ (buffer ++ c).length
    · rw [if_pos hcs]
      obtain ⟨P, B, h1, h2, h3⟩ := ih [] (parts ++ [buffer ++ c])
      refine ⟨P, B, h1, ?_, ?_⟩
      · rw [h2]
        simp [List.append_assoc]
      · intro hpos hparts
        refine h3 hpos ?_
        intro q hq
        rcases List.mem_append.mp hq with hq1 | hq1
        · exact hparts q hq1
        · rw [List.mem_singleton.mp hq1]
          have : 0 < (buffer ++ c).length := Nat.lt_of_lt_of_le hpos hcs
          exact List.ne_nil_of_length_pos this
    · rw [if_neg hcs]
      obtain ⟨P, B, h1, h2, h3⟩ := ih (buffer ++ c) parts
      refine ⟨P, B, h1, ?_, h3⟩
      rw [h2]
      simp [List.append_assoc]

/-- Looking up a key immediately after binding it returns the new
value. -/
theorem lookupKey_setKey {α : Type} (m : List (String × α)) (k : String) (v : α) :
    lookupKey (setKey m k v) k = some v := by
  simp [lookupKey, setKey, List.find?]

/-- Rechunking a byte string into positive-size pieces loses nothing. -/
theorem chunkList_flatten (cs : Nat) (l : Bytes) (hcs : 0 < cs) :
    (chunkList cs l).flatten = l := by
  rw [chunkList]
  rw [if_neg (Nat.pos_iff_ne_zero.mp hcs)]
  by_cases hl : l = []
  · rw [if_pos hl]
    simp [hl]
  · rw [if_neg hl]
    have ih := chunkList_flatten cs (l.drop cs) hcs
    simp [ih, List.take_append_drop]
termination_by l.length
decreasing_by
  simp only [List.length_drop]
  exact Nat.sub_lt (List.length_pos.mpr hl) hcs

/-- The filesystem read loop at `length = 0` steps one fixed-size
chunk at a time. -/
theorem fsReadLoop_zero (cs : Nat) (l : Bytes) (b : Nat) :
    fsReadLoop cs 0 l b =
      if l.take cs = [] then []
      else l.take cs :: fsReadLoop cs 0 (l.drop cs) (b + (l.take cs).length) := by
  rw [fsReadLoop]
  simp

/-- A `length = 0` (read-to-end) filesystem read loop with a positive
chunk size delivers the remaining file contents exactly. -/
theorem fsReadLoop_flatten (cs : Nat) (l : Bytes) (b : Nat) (hcs : 0 < cs) :
    (fsReadLoop cs 0 l b).flatten = l := by
  rw [fsReadLoop_zero]
  by_cases h : l.take cs = []
  · rw [if_pos h]
    rcases List.take_eq_nil_iff.mp h with h1 | h1
    · exact absurd h1 (Nat.pos_iff_ne_zero.mp hcs)
    · simp [h1]
  · rw [if_neg h]
    simp only [List.flatten_cons]
    rw [fsReadLoop_flatten cs (l.drop cs) (b + (l.take cs).length) hcs]
    exact List.take_append_drop cs l
termination_by l.length
decreasing_by
  have hl : l ≠ [] := by
    intro hnil
    exact h (by simp [hnil])
  simp only [List.length_drop]
  exact Nat.sub_lt (List.length_pos.mpr hl) hcs

/-- Directory insertion preserves existing members. -/
theorem mem_addDirs_left (dirs ps : List String) (q : String) (h : q ∈ dirs) :
    q ∈ addDirs dirs ps := by
  induction ps generalizing dirs with
  | nil => exact h
  | cons p rest ih =>
    show q ∈ addDirs (if p ∈ dirs then dirs else dirs ++ [p]) rest
    by_cases hp : p ∈ dirs
    · rw [if_pos hp]
      exact ih dirs h
    · rw [if_neg hp]
      exact ih _ (List.mem_append_left _ h)

/-- Directory insertion makes every inserted path a member. -/
theorem mem_addDirs_arg (dirs ps : List String) (q : String) (h : q ∈ ps) :
    q ∈ addDirs dirs ps := by
  induction ps generalizing dirs with
  | nil => cases h
  | cons p rest ih =>
    show q ∈ addDirs (if p ∈ dirs then dirs else dirs ++ [p]) rest
    rcases List.mem_cons.mp h with rfl | hq
    · apply mem_addDirs_left
      by_cases hp : q ∈ dirs
      · rw [if_pos hp]
        exact hp
      · rw [if_neg hp]
        exact List.mem_append_right _ (List.mem_singleton.mpr rfl)
    · exact ih _ hq

/-! ## C1: safe_join and traversal rejection -/

/-- C1, counterexample. The claim says every client path containing a
`..` segment, and every absolute-path override, makes `safe_join`
raise `PermissionError`. Neither is so: "a/../b" contains a `..`
segment yet resolves inside the root and is returned, and the absolute
path "/etc/passwd" has its leading slash stripped by normalization and
is joined under the root rather than rejected. -/
theorem safe_join_claim_fails :
    hasDotDotSeg "a/../b" = true ∧
    safe_join "/data" "a/../b" = .ok "/data/b" ∧
    safe_join "/data" "/etc/passwd" = .ok "/data/etc/passwd" := by
  refine ⟨by decide, by decide, by decide⟩

/-- C1, amended. `safe_join` enforces a resolved-prefix policy rather
than rejecting every `..` or absolute path: a path whose resolved
segments extend the resolved root's segments is accepted and the
canonical absolute target returned (so `..` segments that cancel
inside the root, and absolute-path overrides stripped to relative
form, pass), and `PermissionError` is raised exactly when the resolved
target string fails the `startswith` test against the resolved root
string. No backing store is involved in either case. -/
theorem safe_join_prefix_policy (base rel : String) :
    (resolveSegs (splitSlash base) <+:
        resolveSegs (resolveSegs (splitSlash base) ++ splitSlash (normalize_path rel)) →
      safe_join base rel =
        .ok (renderAbs (resolveSegs
          (resolveSegs (splitSlash base) ++ splitSlash (normalize_path rel))))) ∧
    (pyStartsWith
        (renderAbs (resolveSegs
          (resolveSegs (splitSlash base) ++ splitSlash (normalize_path rel))))
        (renderAbs (resolveSegs (splitSlash base))) = false →
      safe_join base rel = .error ("Path traversal detected: " ++ rel)) := by
  constructor
  · intro h
    obtain ⟨t, ht⟩ := h
    have hsw : pyStartsWith
        (renderAbs (resolveSegs
          (resolveSegs (splitSlash base) ++ splitSlash (normalize_path rel))))
        (renderAbs (resolveSegs (splitSlash base))) = true := by
      rw [pyStartsWith_iff, ← ht]
      exact renderAbs_data_prefix _ _
    simp only [safe_join]
    rw [if_pos hsw]
  · intro h
    simp only [safe_join]
    rw [if_neg (by simp [h])]

/-- Witness for C1: the inside-root path "a/../b" under root "/data"
satisfies the segment-extension hypothesis and is accepted with the
resolved target "/data/b". -/
theorem safe_join_prefix_policy_witness :
    (resolveSegs (splitSlash "/data") <+:
        resolveSegs (resolveSegs (splitSlash "/data") ++
          splitSlash (normalize_path "a/../b"))) ∧
    safe_join "/data" "a/../b" =
      .ok (renderAbs (resolveSegs
        (resolveSegs (splitSlash "/data") ++ splitSlash (normalize_path "a/../b")))) :=
  ⟨by decide, (safe_join_prefix_policy "/data" "a/../b").1 (by decide)⟩

/-! ## C2: which driver operations validate paths -/

/-- C2, counterexample. The claim says every operation of every driver
validates the client path through the PathSafety resolution before
touching the backing store, raising PermissionDenied on violation. The
object-store driver does not: "../x" is a path that `safe_join`
rejects as traversal, yet `S3Driver.stat` serves it straight from the
backing store (its `_clean_key` only strips slashes). -/
theorem s3_no_path_validation :
    safe_join "/data" "../x" = .error "Path traversal detected: ../x" ∧
    s3_stat ⟨[("../x", [7])], [], 0⟩ "../x" = .ok ⟨"x", "../x", false, 1, 0, 0, some ""⟩ :=
  ⟨by decide, by decide⟩

/-- C2, amended. Only the filesystem driver routes every operation
through the PathSafety resolution: whenever `safe_join` rejects the
path, each filesystem operation raises that `PermissionError` without
touching the backing store. The object-store driver performs no such
validation: its key cleaning merely strips slashes, and stat, mkdirs,
remove, read_stream and write_stream (on a non-raising inbound
stream) never raise PermissionDenied of their own. -/
theorem path_validation_fs_only (stF : FsState) (stS : S3State) (root rel m : String)
    (exist_ok recursive ovr app : Bool) (offset length cs : Nat) (chunks : List Bytes)
    (hj : safe_join root rel = .error m) :
    fs_stat stF root rel = .error (.permissionError m) ∧
    fs_exists stF root rel = .error (.permissionError m) ∧
    fs_mkdirs stF root rel exist_ok = .error (.permissionError m) ∧
    fs_remove stF root rel recursive = .error (.permissionError m) ∧
    fs_read_stream stF root rel offset length cs = .error (.permissionError m) ∧
    fs_write_stream stF root rel chunks ovr app = .error (.permissionError m) ∧
    raisesPermission (s3_stat stS rel) = false ∧
    exceptOk (s3_mkdirs stS rel exist_ok) = true ∧
    raisesPermission (s3_remove stS rel recursive) = false ∧
    raisesPermission (s3_read_stream stS rel offset length cs) = false ∧
    raisesPermission (s3_write_stream stS rel (chunks.map Except.ok) ovr app cs).result
      = false := by
  have hfp : fs_full_path root rel = .error (.permissionError m) := by
    simp [fs_full_path, hj]
  refine ⟨by simp [fs_stat, hfp], by simp [fs_exists, hfp], by simp [fs_mkdirs, hfp],
    by simp [fs_remove, hfp], by simp [fs_read_stream, hfp], by simp [fs_write_stream, hfp],
    ?_, rfl, ?_, ?_, ?_⟩
  · cases hk : lookupKey stS.objects (clean_key rel) with
    | some d => simp [s3_stat, hk, raisesPermission]
    | none =>
      simp only [s3_stat, hk]
      split <;> rfl
  · simp only [s3_remove]
    split
    · rfl
    · split
      · rfl
      · split <;> rfl
  · cases hk : lookupKey stS.objects (clean_key rel) with
    | some d =>
      simp only [s3_read_stream, hk]
      split
      · split <;> rfl
      · rfl
    | none => simp [s3_read_stream, hk, raisesPermission]
  · simp only [s3_write_stream]
    split
    · rfl
    · split
      · rfl
      · obtain ⟨P, B, h1, _⟩ := s3UploadLoop_pure cs chunks [] []
        simp only [h1]
        split <;> split <;> rfl

/-- Witness for C2: the traversal path "../x" under root "/data" is
rejected by safe_join, every filesystem operation propagates the
PermissionError, and none of the object-store operations raises
PermissionDenied on the same path. -/
theorem path_validation_fs_only_witness :
    safe_join "/data" "../x" = .error "Path traversal detected: ../x" ∧
    (fs_stat ⟨[], []⟩ "/data" "../x"
        = .error (.permissionError "Path traversal detected: ../x") ∧
      fs_exists ⟨[], []⟩ "/data" "../x"
        = .error (.permissionError "Path traversal detected: ../x") ∧
      fs_mkdirs ⟨[], []⟩ "/data" "../x" false
        = .error (.permissionError "Path traversal detected: ../x") ∧
      fs_remove ⟨[], []⟩ "/data" "../x" false
        = .error (.permissionError "Path traversal detected: ../x") ∧
      fs_read_stream ⟨[], []⟩ "/data" "../x" 0 0 1
        = .error (.permissionError "Path traversal detected: ../x") ∧
      fs_write_stream ⟨[], []⟩ "/data" "../x" [] false false
        = .error (.permissionError "Path traversal detected: ../x") ∧
      raisesPermission (s3_stat ⟨[("../x", [7])], [], 0⟩ "../x") = false ∧
      exceptOk (s3_mkdirs ⟨[("../x", [7])], [], 0⟩ "../x" false) = true ∧
      raisesPermission (s3_remove ⟨[("../x", [7])], [], 0⟩ "../x" false) = false ∧
      raisesPermission (s3_read_stream ⟨[("../x", [7])], [], 0⟩ "../x" 0 0 1) = false ∧
      raisesPermission
        (s3_write_stream ⟨[("../x", [7])], [], 0⟩ "../x" (List.map Except.ok [])
          false false 1).result = false) :=
  ⟨by decide,
    path_validation_fs_only ⟨[], []⟩ ⟨[("../x", [7])], [], 0⟩ "/data" "../x"
      "Path traversal detected: ../x" false false false false 0 0 1 [] (by decide)⟩

/-! ## C3: multipart sessions never orphaned -/

/-- C3. Whatever the inbound stream does — including raising after any
number of parts — the object-store write leaves the set of open
multipart sessions exactly as it found it (the session it opened is
completed or aborted on every exit path), and an inbound-stream
exception reaching the upload loop propagates out of the driver after
the abort. -/
theorem multipart_no_orphan (st : S3State) (rel : String)
    (chunks : List (Except PyError Bytes)) (ovr app : Bool) (cs : Nat) :
    (s3_write_stream st rel chunks ovr app cs).state.uploads = st.uploads ∧
    (∀ e, s3UploadLoop cs chunks [] [] = .error e → app = false →
      (ovr = true ∨ (lookupKey st.objects (clean_key rel)).isSome = false) →
      (s3_write_stream st rel chunks ovr app cs).result = .error e) := by
  constructor
  · simp only [s3_write_stream]
    split
    · rfl
    · split
      · rfl
      · split
        · simp [List.erase_cons_head]
        · split <;> split <;> simp [List.erase_cons_head]
  · intro e hl happ hov
    have hcond : ¬ (¬ ovr = true ∧ ((lookupKey st.objects (clean_key rel)).isSome = true)) := by
      rcases hov with h | h
      · intro hc
        exact hc.1 h
      · intro hc
        rw [h] at hc
        exact absurd hc.2 (by simp)
    simp only [s3_write_stream, happ, Bool.false_eq_true, if_false, if_neg hcond]
    rw [hl]

/-- Witness for C3: a stream whose single element raises after the
session opened leaves no open upload behind and propagates the
exception. -/
theorem multipart_no_orphan_witness :
    (s3_write_stream ⟨[], [], 0⟩ "k" [.error (.streamError "boom")] true false 5).state.uploads
      = ([] : List Nat) ∧
    (s3_write_stream ⟨[], [], 0⟩ "k" [.error (.streamError "boom")] true false 5).result
      = .error (.streamError "boom") :=
  ⟨(multipart_no_orphan ⟨[], [], 0⟩ "k" [.error (.streamError "boom")] true false 5).1,
   (multipart_no_orphan ⟨[], [], 0⟩ "k" [.error (.streamError "boom")] true false 5).2
     (.streamError "boom") rfl rfl (Or.inl rfl)⟩

/-! ## C4: write/read round trip on both drivers -/

/-- C4, counterexample. The claim includes byte sequences of size 0 on
both drivers, but a 0-byte write on the object-store driver fails: the
empty inbound stream produces no parts, the zero-part multipart
completion is rejected by the backend, and the driver aborts the
session and propagates the error — no object is created, so the
subsequent read raises NotFound instead of yielding the empty
sequence. -/
theorem s3_zero_byte_write_fails :
    (s3_write_stream ⟨[], [], 0⟩ "f" (List.map Except.ok []) true false 5).result
      = .error (.clientError "MalformedXML"
          "The XML you provided was not well-formed or did not validate against our published schema") ∧
    (s3_write_stream ⟨[], [], 0⟩ "f" (List.map Except.ok []) true false 5).state.objects
      = [] ∧
    (s3_write_stream ⟨[], [], 0⟩ "f" (List.map Except.ok []) true false 5).state.uploads
      = [] ∧
    s3_read_stream
      (s3_write_stream ⟨[], [], 0⟩ "f" (List.map Except.ok []) true false 5).state
      "f" 0 0 5 = .error (.fileNotFound "S3 key not found: f") :=
  ⟨by decide, by decide, by decide, by decide⟩

/-- C4, amended. Writing with `overwrite = true` and then
`read_stream(p, 0, 0)` reproduces the byte sequence exactly on the
filesystem driver for all four sizes (the filesystem success is a
hypothesis because a directory can sit at the destination), and on the
object-store driver for every non-empty payload — 1 byte, one chunk,
one chunk plus one byte. A 0-byte payload on the object store instead
fails: its zero-part multipart completion is rejected (ClientError),
the session is aborted and no object is created. -/
theorem write_read_round_trip (stF : FsState) (stS : S3State) (root rel : String)
    (chunks : List Bytes) (data : Bytes) (cs : Nat) (stF' : FsState)
    (hcs : 0 < cs)
    (hsize : data.length = 0 ∨ data.length = 1 ∨ data.length = cs ∨ data.length = cs + 1)
    (hdata : chunks.flatten = data)
    (hwF : fs_write_stream stF root rel chunks true false = .ok stF') :
    readAll (fs_read_stream stF' root rel 0 0 cs) = .ok data ∧
    (¬ data = [] →
      (s3_write_stream stS rel (chunks.map Except.ok) true false cs).result = .ok () ∧
      readAll (s3_read_stream
        (s3_write_stream stS rel (chunks.map Except.ok) true false cs).state rel 0 0 cs)
        = .ok data) ∧
    (data = [] →
      (s3_write_stream stS rel (chunks.map Except.ok) true false cs).result
        = .error (.clientError "MalformedXML"
            "The XML you provided was not well-formed or did not validate against our published schema") ∧
      (s3_write_stream stS rel (chunks.map Except.ok) true false cs).state.objects
        = stS.objects) := by
  obtain ⟨P, B, hloop, hflat, hne⟩ := s3UploadLoop_pure cs chunks [] []
  have hpf : (if ¬ B = [] then P ++ [B] else P).flatten = data := by
    simp only [List.flatten_nil, List.nil_append] at hflat
    by_cases hb : B = []
    · rw [if_neg (by simp [hb])]
      subst hb
      rw [← hdata, ← hflat]
      simp
    · rw [if_pos hb]
      rw [← hdata, ← hflat]
      simp
  refine ⟨?_, ?_, ?_⟩
  · -- filesystem round trip
    cases hfp : fs_full_path root rel with
    | error e =>
      rw [fs_write_stream, hfp] at hwF
      simp at hwF
    | ok full =>
      rw [fs_write_stream, hfp] at hwF
      simp only [not_true, false_and, if_false] at hwF
      cases hmk : (if ¬ fsExists stF (dirname full)
          then os_makedirs stF (dirname full) true else .ok stF) with
      | error e2 =>
        rw [hmk] at hwF
        simp at hwF
      | ok st2 =>
        rw [hmk] at hwF
        by_cases hdir : full ∈ st2.dirs
        · simp [hdir] at hwF
        · simp only [hdir, if_false, if_neg, Bool.false_eq_true, List.nil_append,
            Except.ok.injEq] at hwF
          subst hwF
          rw [fs_read_stream, hfp]
          simp only [hdir, if_false, if_neg]
          rw [show lookupKey (setKey st2.files full chunks.flatten) full
              = some chunks.flatten from lookupKey_setKey _ _ _]
          simp only [readAll, List.drop_zero, Except.map]
          rw [fsReadLoop_flatten cs chunks.flatten 0 hcs, hdata]
  · -- object-store round trip for a non-empty payload
    intro h0
    have hpfne : ¬ (if ¬ B = [] then P ++ [B] else P) = [] := by
      intro hx
      rw [hx] at hpf
      exact h0 hpf.symm
    constructor
    · simp only [s3_write_stream, Bool.false_eq_true, if_false, not_true, false_and, hloop,
        if_neg hpfne]
    · have hobj : (s3_write_stream stS rel (chunks.map Except.ok) true false cs).state.objects
          = setKey stS.objects (clean_key rel) data := by
        simp only [s3_write_stream, Bool.false_eq_true, if_false, not_true, false_and, hloop,
          if_neg hpfne]
        rw [hpf]
      rw [s3_read_stream, hobj]
      rw [show lookupKey (setKey stS.objects (clean_key rel) data) (clean_key rel)
          = some data from lookupKey_setKey _ _ _]
      simp only [Nat.lt_irrefl, or_self, if_false, readAll, Except.map]
      rw [chunkList_flatten cs data hcs]
  · -- object-store failure for the empty payload
    intro h0
    have hBn : B = [] ∧ P.flatten = [] := by
      simp only [List.flatten_nil, List.nil_append] at hflat
      rw [hdata, h0] at hflat
      exact ⟨(List.append_eq_nil.mp hflat).2, (List.append_eq_nil.mp hflat).1⟩
    have hPn : P = [] := by
      cases hP : P with
      | nil => rfl
      | cons q Ps =>
        have hq : q ≠ [] := hne hcs (fun r hr => absurd hr (List.not_mem_nil r)) q
          (by rw [hP]; exact List.mem_cons_self q Ps)
        have hfl := hBn.2
        rw [hP] at hfl
        simp only [List.flatten_cons] at hfl
        exact absurd (List.append_eq_nil.mp hfl).1 hq
    have hpfe : (if ¬ B = [] then P ++ [B] else P) = [] := by
      rw [hBn.1, hPn]
      simp
    constructor
    · simp only [s3_write_stream, Bool.false_eq_true, if_false, not_true, false_and, hloop,
        if_pos hpfe]
    · simp only [s3_write_stream, Bool.false_eq_true, if_false, not_true, false_and, hloop,
        if_pos hpfe]

/-- Witness for C4: one byte written through both drivers under a
chunk size of 1 reads back unchanged (the non-empty object-store leg
enabled by the payload being non-empty). -/
theorem write_read_round_trip_witness :
    (0 < 1) ∧
    (List.length [7] = 0 ∨ List.length [7] = 1 ∨ List.length [7] = 1 ∨
      List.length [7] = 1 + 1) ∧
    List.flatten [[7]] = [7] ∧
    fs_write_stream ⟨[], []⟩ "/data" "f" [[7]] true false
      = .ok ⟨["/data"], [("/data/f", [7])]⟩ ∧
    ¬ ([7] : Bytes) = [] ∧
    (readAll (fs_read_stream ⟨["/data"], [("/data/f", [7])]⟩ "/data" "f" 0 0 1)
        = .ok [7] ∧
      (s3_write_stream ⟨[], [], 0⟩ "f" (List.map Except.ok [[7]]) true false 1).result
        = .ok () ∧
      readAll (s3_read_stream
        (s3_write_stream ⟨[], [], 0⟩ "f" (List.map Except.ok [[7]]) true false 1).state
        "f" 0 0 1) = .ok [7]) :=
  have h := write_read_round_trip ⟨[], []⟩ ⟨[], [], 0⟩ "/data" "f" [[7]] [7] 1
    ⟨["/data"], [("/data/f", [7])]⟩ (by decide) (by decide) (by decide) (by decide)
  ⟨by decide, by decide, by decide, by decide, by decide,
    h.1, (h.2.1 (by decide)).1, (h.2.1 (by decide)).2⟩

/-! ## C5: cache invalidation after mutating operations -/

/-- C5, counterexample. The claim says cache invalidation happens
after every mutating operation regardless of success or failure, so
that no pre-mutation entry remains servable. A failed rename leaves
the cache untouched: with a stat entry cached for "a", a rename whose
driver call raises NotFound keeps that entry servable. -/
theorem failed_rename_keeps_cache :
    lookupKey (handleRename ⟨[("a", ⟨"a", "a", false, 0, 0, 0, none⟩)], []⟩
      (.error (.fileNotFound "boom")) "a" "b").cache.stats "a"
      = some ⟨"a", "a", false, 0, 0, 0, none⟩ := by
  decide

/-- C5, amended. The Write handler invalidates the destination path
after success and failure alike, but the Rename and Remove handlers
invalidate (rename: both endpoints) only when the driver call
succeeds: a failed rename or remove aborts the RPC with the cache
exactly as it was, pre-mutation entries included. -/
theorem mutation_invalidation (c : CacheState) (src dst rel p : String) (e : PyError)
    (o a : Bool) (rest : List WriteFrame)
    (wd : String → List Bytes → Bool → Bool → Except (PyError × Nat) Nat) :
    (handleRename c (.ok ()) src dst).cache
      = cache_invalidate (cache_invalidate c src) dst ∧
    (handleRename c (.error e) src dst).cache = c ∧
    (handleRemove c (.ok ()) rel).cache = cache_invalidate c rel ∧
    (handleRemove c (.error e) rel).cache = c ∧
    (handleWrite c (.header p o a :: rest) wd).cache = cache_invalidate c p := by
  refine ⟨rfl, rfl, rfl, rfl, ?_⟩
  rw [handleWrite]
  cases wd p (dataFrames rest) o a with
  | ok n => rfl
  | error en => rfl

/-! ## C6: mkdirs idempotence -/

/-- C6, counterexample. The claim says that on both drivers a second
`mkdirs(p, exist_ok=false)` fails AlreadyExists. The object-store
driver never consults `exist_ok`: it unconditionally re-puts the
zero-length marker, so the second call succeeds. -/
theorem s3_mkdirs_second_call_succeeds :
    s3_mkdirs ⟨[], [], 0⟩ "d" false = .ok ⟨[("d/", [])], [], 0⟩ ∧
    s3_mkdirs ⟨[("d/", [])], [], 0⟩ "d" false = .ok ⟨[("d/", [])], [], 0⟩ :=
  ⟨by decide, by decide⟩

/-- C6, amended. On the filesystem driver the claim holds: after a
successful `mkdirs(p, exist_ok=true)` a second such call succeeds
(returning the same state), and after a successful
`mkdirs(p, exist_ok=false)` a second such call fails AlreadyExists.
On the object-store driver `mkdirs` ignores `exist_ok` and never
fails: two successive calls with `exist_ok=false` both succeed. -/
theorem mkdirs_twice (stF stA stB : FsState) (stS : S3State) (root rel full : String)
    (hj : safe_join root rel = .ok full)
    (hA : fs_mkdirs stF root rel true = .ok stA)
    (hB : fs_mkdirs stF root rel false = .ok stB) :
    fs_mkdirs stA root rel true = .ok stA ∧
    fs_mkdirs stB root rel false = .error (.fileExists full) ∧
    exceptOk ((s3_mkdirs stS rel false).bind (fun st1 => s3_mkdirs st1 rel false))
      = true := by
  have hfp : fs_full_path root rel = .ok full := by
    simp [fs_full_path, hj]
  rw [fs_mkdirs, hfp] at hA hB
  have hmemA : full ∈ stA.dirs := by
    simp only [os_makedirs] at hA
    by_cases h1 : full ∈ stF.dirs
    · rw [if_pos h1, if_pos trivial] at hA
      injection hA with h
      rw [← h]
      exact h1
    · rw [if_neg h1] at hA
      by_cases h2 : (lookupKey stF.files full).isSome = true
      · rw [if_pos h2] at hA
        simp at hA
      · rw [if_neg h2] at hA
        by_cases h3 : ((properAncestors full).any
            (fun a => (lookupKey stF.files a).isSome)) = true
        · rw [if_pos h3] at hA
          simp at hA
        · rw [if_neg h3] at hA
          injection hA with h
          rw [← h]
          exact mem_addDirs_arg _ _ _
            (List.mem_append_right _ (List.mem_singleton.mpr rfl))
  have hmemB : full ∈ stB.dirs := by
    simp only [os_makedirs] at hB
    by_cases h1 : full ∈ stF.dirs
    · rw [if_pos h1, if_neg (by simp)] at hB
      simp at hB
    · rw [if_neg h1] at hB
      by_cases h2 : (lookupKey stF.files full).isSome = true
      · rw [if_pos h2] at hB
        simp at hB
      · rw [if_neg h2] at hB
        by_cases h3 : ((properAncestors full).any
            (fun a => (lookupKey stF.files a).isSome)) = true
        · rw [if_pos h3] at hB
          simp at hB
        · rw [if_neg h3] at hB
          injection hB with h
          rw [← h]
          exact mem_addDirs_arg _ _ _
            (List.mem_append_right _ (List.mem_singleton.mpr rfl))
  refine ⟨?_, ?_, rfl⟩
  · rw [fs_mkdirs, hfp]
    simp only [os_makedirs]
    rw [if_pos hmemA, if_pos trivial]
  · rw [fs_mkdirs, hfp]
    simp only [os_makedirs]
    rw [if_pos hmemB, if_neg (by simp)]

/-- Witness for C6: a fresh directory "d" under root "/data" on an
empty filesystem, and the object-store double call on an empty
bucket. -/
theorem mkdirs_twice_witness :
    safe_join "/data" "d" = .ok "/data/d" ∧
    fs_mkdirs ⟨[], []⟩ "/data" "d" true = .ok ⟨["/data", "/data/d"], []⟩ ∧
    fs_mkdirs ⟨[], []⟩ "/data" "d" false = .ok ⟨["/data", "/data/d"], []⟩ ∧
    (fs_mkdirs ⟨["/data", "/data/d"], []⟩ "/data" "d" true
        = .ok ⟨["/data", "/data/d"], []⟩ ∧
      fs_mkdirs ⟨["/data", "/data/d"], []⟩ "/data" "d" false
        = .error (.fileExists "/data/d") ∧
      exceptOk ((s3_mkdirs ⟨[], [], 0⟩ "d" false).bind
        (fun st1 => s3_mkdirs st1 "d" false)) = true) :=
  ⟨by decide, by decide, by decide,
    mkdirs_twice ⟨[], []⟩ ⟨["/data", "/data/d"], []⟩ ⟨["/data", "/data/d"], []⟩
      ⟨[], [], 0⟩ "/data" "d" "/data/d" (by decide) (by decide) (by decide)⟩

/-! ## C7: write failures reported in-band -/

/-- C7. When the driver's write_stream raises during the Write RPC,
the handler does not abort the stream: it yields exactly one terminal
acknowledgement with `ok = false` carrying `str(e)`, and still
invalidates the cache for the destination path. -/
theorem write_failure_in_band (c : CacheState) (p : String) (o a : Bool)
    (rest : List WriteFrame)
    (wd : String → List Bytes → Bool → Bool → Except (PyError × Nat) Nat)
    (e : PyError) (n : Nat)
    (hw : wd p (dataFrames rest) o a = .error (e, n)) :
    (handleWrite c (.header p o a :: rest) wd).acks = [⟨false, n, pyErrMsg e⟩] ∧
    (handleWrite c (.header p o a :: rest) wd).abort = none ∧
    (handleWrite c (.header p o a :: rest) wd).cache = cache_invalidate c p := by
  simp only [handleWrite, hw]
  exact ⟨trivial, trivial, trivial⟩

/-- Witness for C7: a driver that fails immediately with
FileExistsError produces the single negative ack, no abort, and the
invalidated cache. -/
theorem write_failure_in_band_witness :
    failingWriteDriver (.fileExists "x") 0 "f" (dataFrames []) false false
      = .error ((PyError.fileExists "x"), 0) ∧
    ((handleWrite ⟨[], []⟩ [.header "f" false false]
        (failingWriteDriver (.fileExists "x") 0)).acks
      = [⟨false, 0, pyErrMsg (.fileExists "x")⟩] ∧
     (handleWrite ⟨[], []⟩ [.header "f" false false]
        (failingWriteDriver (.fileExists "x") 0)).abort = none ∧
     (handleWrite ⟨[], []⟩ [.header "f" false false]
        (failingWriteDriver (.fileExists "x") 0)).cache
      = cache_invalidate ⟨[], []⟩ "f") :=
  ⟨rfl, write_failure_in_band ⟨[], []⟩ "f" false false []
    (failingWriteDriver (.fileExists "x") 0) (.fileExists "x") 0 rfl⟩

/-! ## C8: append on the object store -/

/-- C8, counterexample. Append on the object-store driver does fail —
with NotImplementedError — but the error taxonomy has no Unsupported
mapping: `translate_exception` reports it as INTERNAL, not as the
UNIMPLEMENTED status the taxonomy's Unsupported kind corresponds to. -/
theorem append_translates_to_internal :
    (s3_write_stream ⟨[], [], 0⟩ "p" [] false true 5).result
      = .error (.notImplementedError "Append operation is not supported on S3 driver") ∧
    (translate_exception
        (.notImplementedError "Append operation is not supported on S3 driver")).1
      = .internal ∧
    StatusCode.internal ≠ StatusCode.unimplemented :=
  ⟨rfl, rfl, by decide⟩

/-- C8, amended. write_stream with `append = true` on the object-store
driver always fails with NotImplementedError, touching no backend
state; the error taxonomy maps that exception to Internal (its
catch-all), because `translate_exception` has no Unsupported case. -/
theorem append_unsupported_maps_internal (st : S3State) (rel : String)
    (chunks : List (Except PyError Bytes)) (ovr : Bool) (cs : Nat) :
    (s3_write_stream st rel chunks ovr true cs).result
      = .error (.notImplementedError "Append operation is not supported on S3 driver") ∧
    (s3_write_stream st rel chunks ovr true cs).state = st ∧
    (translate_exception
        (.notImplementedError "Append operation is not supported on S3 driver")).1
      = .internal :=
  ⟨rfl, rfl, rfl⟩

/-! ## C9: extra header frames are skipped -/

/-- C9. In a write stream whose first frame is a header, an additional
header frame anywhere among the remaining frames is silently skipped:
it contributes nothing to the extracted data or to the byte count, the
RPC is not aborted, and the handler's outcome is identical to the
stream without that frame. -/
theorem extra_headers_skipped (c : CacheState) (p h2 : String) (o a o2 a2 : Bool)
    (pre post : List WriteFrame)
    (wd : String → List Bytes → Bool → Bool → Except (PyError × Nat) Nat) :
    dataFrames (pre ++ WriteFrame.header h2 o2 a2 :: post) = dataFrames (pre ++ post) ∧
    bytesCount (pre ++ WriteFrame.header h2 o2 a2 :: post) = bytesCount (pre ++ post) ∧
    (handleWrite c (.header p o a :: (pre ++ WriteFrame.header h2 o2 a2 :: post)) wd).abort
      = none ∧
    handleWrite c (.header p o a :: (pre ++ WriteFrame.header h2 o2 a2 :: post)) wd
      = handleWrite c (.header p o a :: (pre ++ post)) wd := by
  have hdf : dataFrames (pre ++ WriteFrame.header h2 o2 a2 :: post)
      = dataFrames (pre ++ post) := by
    simp [dataFrames]
  refine ⟨hdf, by simp [bytesCount, hdf], ?_, ?_⟩
  · simp only [handleWrite, hdf]
    rcases hwd : wd p (dataFrames (pre ++ post)) o a with en | n
    · rfl
    · rfl
  · simp only [handleWrite, hdf]

/-! ## C10: removing an absent path -/

/-- C10. remove(path, recursive=false) of an absent path succeeds
silently on the object-store driver (head fails, the prefix is empty,
nothing raises) but raises FileNotFoundError — reported NotFound — on
the filesystem driver: the drivers diverge at the public interface for
absent targets. -/
theorem remove_absent_divergence (stS : S3State) (stF : FsState) (root rel full : String)
    (hs3a : (lookupKey stS.objects (clean_key rel)).isSome = false)
    (hs3b : s3_is_dir stS (clean_key rel) = false)
    (hj : safe_join root rel = .ok full)
    (hfs : ¬ fsExists stF full) :
    s3_remove stS rel false = .ok stS ∧
    fs_remove stF root rel false = .error (.fileNotFound full) ∧
    (translate_exception (.fileNotFound full)).1 = .notFound := by
  have hfp : fs_full_path root rel = .ok full := by
    simp [fs_full_path, hj]
  refine ⟨?_, ?_, rfl⟩
  · simp [s3_remove, hs3a, hs3b]
  · simp only [fs_remove, hfp]
    have hdirs : ¬ full ∈ stF.dirs := fun h => hfs (Or.inl h)
    have hfile : lookupKey stF.files full = none := by
      rcases hx : lookupKey stF.files full with _ | v
      · rfl
      · exact absurd (Or.inr (by simp [hx])) hfs
    rw [if_neg hdirs, hfile]

/-- Witness for C10: the absent path "absent" on an empty bucket and
an empty filesystem under root "/data". -/
theorem remove_absent_divergence_witness :
    (lookupKey (⟨[], [], 0⟩ : S3State).objects (clean_key "absent")).isSome = false ∧
    s3_is_dir ⟨[], [], 0⟩ (clean_key "absent") = false ∧
    safe_join "/data" "absent" = .ok "/data/absent" ∧
    ¬ fsExists ⟨[], []⟩ "/data/absent" ∧
    (s3_remove ⟨[], [], 0⟩ "absent" false = .ok ⟨[], [], 0⟩ ∧
      fs_remove ⟨[], []⟩ "/data" "absent" false
        = .error (.fileNotFound "/data/absent") ∧
      (translate_exception (.fileNotFound "/data/absent")).1 = .notFound) :=
  ⟨by decide, by decide, by decide, by decide,
    remove_absent_divergence ⟨[], [], 0⟩ ⟨[], []⟩ "/data" "absent" "/data/absent"
      (by decide) (by decide) (by decide) (by decide)⟩

end YTStorage
